import Mathlib

/-!
Verification of the hardware-recommendation engine in src/main.py
(SISTEMA-DE-ELECCION-DE-HARDWARE).

Modelling conventions:
* Python floats for money, scores and sizes are idealized as exact rationals.
* random.choice(l) is modelled by an explicit index parameter k, picking
  l[k % len(l)]; theorems quantify over every possible value of k, hence
  over every possible outcome of the randomized tie-breaks.
* A Python dict of components is modelled by a structure whose fields follow
  the data model of the catalog: name, price and performance_score are always
  present, category-specific attributes are optional.
* Exceptions are modelled with Except String; the outer try/except boundary of
  recommend catches them and produces the internal-error response.
* Python str.lower().strip() is modelled on char lists (ASCII lowering and
  whitespace stripping), which coincides with Python on the ASCII profile
  names that occur in the system.
-/

/-- A catalog component (a Python dict with name, price, performance_score and
optional category-specific attributes). -/
structure Component where
  name : String
  price : ℚ
  performance_score : ℚ
  socket : Option String
  size_gb : Option ℚ
  hz : Option ℚ
  res : Option String
  power_w : Option ℚ
  level : Option String
deriving DecidableEq

/-- Helper building a component that has only the three mandatory attributes. -/
def mkComp (name : String) (price perf : ℚ) : Component :=
  ⟨name, price, perf, none, none, none, none, none, none⟩

/-- A profile entry of the catalog: knowledge.profiles[name]. -/
structure ProfileInfo where
  gpu_required : Bool
  min_ram_gb : ℚ
  min_ssd_gb : ℚ
deriving DecidableEq

/-- A per-profile allocation dict: rules_meta.allocation_percentages[name].
Each slot fraction may be absent; recommend supplies the defaults. -/
structure Allocation where
  cpu : Option ℚ
  gpu : Option ℚ
  ram : Option ℚ
  ssd : Option ℚ
deriving DecidableEq

/-- The empty allocation dict, used when a profile has no allocation entry. -/
def Allocation.empty : Allocation := ⟨none, none, none, none⟩

/-- The in-memory knowledge base: profiles, the component lists per category
and the allocation percentages from rules_meta. -/
structure Catalog where
  profiles : List (String × ProfileInfo)
  cpus : List Component
  gpus : List Component
  rams : List Component
  ssds : List Component
  psus : List Component
  motherboards : List Component
  monitors : List Component
  allocation_percentages : List (String × Allocation)

/-- One index per random.choice call site inside a single recommend request. -/
structure RandPicks where
  kcpu : Nat
  kgpu : Nat
  kram : Nat
  kssd : Nat
  kmobo : Nat
  kmon : Nat
  kmobo2 : Nat

/-- Model of random.choice: pick l[k % len l]; none only on an empty list
(where Python would raise IndexError). -/
def rchoice {α : Type} (l : List α) (k : Nat) : Option α :=
  l.get? (k % l.length)

/-- Model of Python min(list, key=price): the first component of minimal
price; none on the empty list (where Python raises ValueError). -/
def minByPriceAux (best : Component) : List Component → Component
  | [] => best
  | c :: cs => minByPriceAux (if c.price < best.price then c else best) cs

/-- Entry point of the price-minimum scan, mirroring min(..., key=price). -/
def minByPrice : List Component → Option Component
  | [] => none
  | c :: cs => some (minByPriceAux c cs)

/-- Model of min(comp.price for comp in l): the minimal price value, raising
ValueError (as an Except error) on an empty category. -/
def minPriceIn (l : List Component) : Except String ℚ :=
  match minByPrice l with
  | some c => Except.ok c.price
  | none => Except.error "ValueError: min() arg is an empty sequence"

/-- Sort comparison used by choose_best_component: descending lexicographic on
(performance_score, price), i.e. Python sort(key=(perf, price), reverse=True).
keyGe a b means a is ranked at or before b. -/
def keyGe (a b : Component) : Bool :=
  decide (b.performance_score < a.performance_score ∨
    (b.performance_score = a.performance_score ∧ b.price ≤ a.price))

/-- Stable insertion for the descending sort: a is placed before the first
element it is ranked at-or-before. -/
def insertDesc (a : Component) : List Component → List Component
  | [] => [a]
  | b :: bs => if keyGe a b then a :: b :: bs else b :: insertDesc a bs

/-- Stable descending sort, the model of candidates.sort(key=..., reverse=True). -/
def sortDesc : List Component → List Component
  | [] => []
  | c :: cs => insertDesc c (sortDesc cs)

/-- The soft price ceiling of choose_best_component: max_budget * percent * 1.15. -/
def ceilingPrice (max_budget target_percent : ℚ) : ℚ :=
  max_budget * target_percent * (115 / 100)

/-- The ranked candidate list of choose_best_component: the components at or
below the ceiling, sorted by (performance_score, price) descending. -/
def ranked_candidates (components : List Component) (max_budget target_percent : ℚ) :
    List Component :=
  sortDesc (components.filter (fun c => decide (c.price ≤ ceilingPrice max_budget target_percent)))

/-- Model of choose_best_component (src/main.py lines 34-43). The level
parameter of the source is never used in its body and is omitted. If more
than two candidates qualify, the pick is random among the top two. -/
def choose_best_component (components : List Component) (max_budget target_percent : ℚ)
    (k : Nat) : Option Component :=
  let candidates := components.filter (fun c => decide (c.price ≤ ceilingPrice max_budget target_percent))
  if candidates = [] then none
  else if candidates.length > 2 then rchoice ((ranked_candidates components max_budget target_percent).take 2) k
  else (ranked_candidates components max_budget target_percent).head?

/-- Model of choose_compatible_motherboard (src/main.py lines 45-49):
random.choice(compatibles or mobos), raising IndexError on an empty pool. -/
def choose_compatible_motherboard (mobos : List Component) (cpu : Option Component)
    (k : Nat) : Except String (Option Component) :=
  match cpu with
  | none => Except.ok none
  | some c =>
    let compatibles := mobos.filter (fun m => m.socket == c.socket)
    let pool := if compatibles = [] then mobos else compatibles
    match rchoice pool k with
    | some m => Except.ok (some m)
    | none => Except.error "IndexError: cannot choose from an empty sequence"

/-- Model of choose_gpu_for_profile (src/main.py lines 51-54). Accessing the
attributes of a missing profile_info raises AttributeError. -/
def choose_gpu_for_profile (gpus : List Component) (profile_info : Option ProfileInfo)
    (budget gpu_percent : ℚ) (k : Nat) : Except String (Option Component) :=
  match profile_info with
  | none => Except.error "AttributeError: NoneType object has no attribute get"
  | some info =>
    if info.gpu_required = false then
      Except.ok ((gpus.find? (fun g => g.level == some "integrated")).orElse (fun _ => gpus.head?))
    else
      Except.ok (choose_best_component gpus budget gpu_percent k)

/-- Model of choose_ram_and_ssd (src/main.py lines 56-65). -/
def choose_ram_and_ssd (rams ssds : List Component) (profile_info : Option ProfileInfo)
    (budget ram_percent ssd_percent : ℚ) (kr ks : Nat) :
    Except String (Option Component × Option Component) :=
  match profile_info with
  | none => Except.error "AttributeError: NoneType object has no attribute get"
  | some info =>
    let ram_candidates := rams.filter (fun r => decide (info.min_ram_gb ≤ r.size_gb.getD 0))
    let ssd_candidates := ssds.filter (fun s => decide (info.min_ssd_gb ≤ s.size_gb.getD 0))
    let ram_candidates := if ram_candidates = [] ∧ rams ≠ [] then (minByPrice rams).toList else ram_candidates
    let ssd_candidates := if ssd_candidates = [] ∧ ssds ≠ [] then (minByPrice ssds).toList else ssd_candidates
    let ram := if ram_candidates ≠ [] then choose_best_component ram_candidates budget ram_percent kr else none
    let ssd := if ssd_candidates ≠ [] then choose_best_component ssd_candidates budget ssd_percent ks else none
    Except.ok (ram, ssd)

/-- Model of choose_monitor (src/main.py lines 67-80). Its internal try/except
can only be reached with total operations here, so the model is total. -/
def choose_monitor (monitors : List Component) (profile : String) (budget : ℚ)
    (k : Nat) : Option Component :=
  if monitors = [] then none
  else if profile = "gamer" ∧ budget > 20000 then
    let filtered := monitors.filter (fun m => decide ((144:ℚ) ≤ m.hz.getD 0))
    if filtered ≠ [] then rchoice filtered k else rchoice monitors k
  else if profile = "disenador" ∧ budget > 30000 then
    let filtered := monitors.filter (fun m => m.res == some "1440p" || m.res == some "4K")
    if filtered ≠ [] then rchoice filtered k else rchoice monitors k
  else
    let valid_monitors := monitors.filter (fun m => decide (m.price ≤ budget * (2 / 10)))
    if valid_monitors ≠ [] then rchoice valid_monitors k else rchoice monitors k

/-- The PSU tier index picked by choose_psu (src/main.py lines 82-95):
power at most 100 gives index 0; at most 160 gives index 1 when available,
else 0; at most 200 gives index 2 when available, else the last index; any
higher power gives the last index. -/
def choose_psu_idx (psus : List Component) (gpu : Option Component) : Nat :=
  match gpu with
  | none => 0
  | some g =>
    let power := g.power_w.getD 100
    if power ≤ 100 then 0
    else if power ≤ 160 then (if psus.length > 1 then 1 else 0)
    else if power ≤ 200 then (if psus.length > 2 then 2 else psus.length - 1)
    else psus.length - 1

/-- Model of choose_psu: returns the component at the tier index, none only
for an empty PSU list. -/
def choose_psu (psus : List Component) (gpu : Option Component) : Option Component :=
  match psus with
  | [] => none
  | _ :: _ => psus.get? (choose_psu_idx psus gpu)

/-- Drop leading whitespace characters of a char list. -/
def stripLeft : List Char → List Char
  | [] => []
  | c :: cs => if c.isWhitespace then stripLeft cs else c :: cs

/-- Drop leading and trailing whitespace (Python str.strip) on a char list. -/
def pyStrip (cs : List Char) : List Char :=
  (stripLeft (stripLeft cs).reverse).reverse

/-- Model of (req.profile or "").lower().strip() from src/main.py line 101. -/
def pyLowerStrip (s : String) : String :=
  String.mk (pyStrip (s.data.map Char.toLower))

/-- The seven selected components of a successful recommendation, one per
mandatory category by construction. -/
structure ComponentsMap where
  cpu : Component
  gpu : Component
  ram : Component
  ssd : Component
  motherboard : Component
  psu : Component
  monitor : Component
deriving DecidableEq

/-- The error message of the budget-too-low rejection (src/main.py line 133). -/
def budget_error_msg : String :=
  "El presupuesto ingresado es demasiado bajo para ensamblar una computadora funcional. Por favor, considera aumentar tu presupuesto."

/-- The error message of the unresolved-slots rejection (src/main.py line 170). -/
def missing_error_msg : String :=
  "No se encontro una combinacion posible ni siquiera con los componentes mas basicos."

/-- The error message of the catch-all boundary (src/main.py line 211). -/
def internal_error_msg : String :=
  "Error interno en el servidor."

/-- The note attached when the relaxed second pass filled some slot
(src/main.py line 176). -/
def note_fallback_msg : String :=
  "Se usaron componentes minimos posibles debido al presupuesto ajustado."

/-- The note attached when the profile was auto-detected (src/main.py
lines 199-203); the source quotes the profile name, the quotes are elided. -/
def auto_note (profile : String) (nf : Option String) : String :=
  "El sistema detecto automaticamente el perfil " ++ profile ++ "." ++
    (match nf with
     | some n => " " ++ n
     | none => "")

/-- The structured response of the recommend endpoint: the success dict, the
two structured error dicts and the normalized internal-error dict. -/
inductive Response where
  | success (profile : String) (budget_input : ℚ) (components : ComponentsMap)
      (total_price_estimate : ℚ) (exceeds_budget : Bool)
      (allocation_estimate : Allocation) (note : Option String)
  | budgetError (profile : String) (budget_input : ℚ) (minimum_required : ℚ)
  | missingError (profile : String) (budget_input : ℚ) (missing : List String)
  | internalError (detail : String)
deriving DecidableEq

/-- True exactly on the success variant. -/
def Response.isSuccess : Response → Bool
  | .success .. => true
  | _ => false

/-- The error string of a response, none on success: every error variant of
the boundary carries one of the fixed messages of the source. -/
def Response.errorMsg : Response → Option String
  | .success .. => none
  | .budgetError .. => some budget_error_msg
  | .missingError .. => some missing_error_msg
  | .internalError _ => some internal_error_msg

/-- The profile field of a response; the normalized internal-error dict is the
only response without one. -/
def Response.profileOf : Response → Option String
  | .success profile .. => some profile
  | .budgetError profile .. => some profile
  | .missingError profile .. => some profile
  | .internalError _ => none

/-- True when the response carries a components mapping (only success does). -/
def Response.hasComponents : Response → Bool
  | .success .. => true
  | _ => false

/-- The minimum_required field, present only on the budget rejection. -/
def Response.minimumRequired : Response → Option ℚ
  | .budgetError _ _ m => some m
  | _ => none

/-- Python round(x, 2) idealized on rationals: round to the nearest hundredth
(float representation noise and the half-even rule at exact half-cents are
abstracted away; both agree with this on values exact in two decimals). -/
def round2 (q : ℚ) : ℚ :=
  (round (q * 100) : ℤ) / 100

/-- The budget-tier auto-detection table of recommend (src/main.py lines 109-118). -/
def detect_by_budget (budget : ℚ) : String :=
  if budget < 10000 then "ofimatico"
  else if budget < 20000 then "estudiante"
  else if budget < 30000 then "programador"
  else if budget < 40000 then "gamer"
  else "disenador"

/-- Profile detection of recommend (src/main.py lines 107-122): pair of the
profile used and the auto_detected flag. -/
def detect_profile (profiles : List (String × ProfileInfo)) (profile_in : String)
    (budget : ℚ) : String × Bool :=
  if profile_in = "" ∨ profiles.lookup profile_in = none ∨ profile_in = "ninguno" then
    (detect_by_budget budget, true)
  else (profile_in, false)

/-- The minimum base cost of recommend (src/main.py lines 128-129): the sum of
the cheapest price of the six categories cpus, rams, ssds, psus, motherboards
and monitors; any empty category raises ValueError. -/
def minBase (cat : Catalog) : Except String ℚ :=
  match minPriceIn cat.cpus, minPriceIn cat.rams, minPriceIn cat.ssds,
        minPriceIn cat.psus, minPriceIn cat.motherboards, minPriceIn cat.monitors with
  | .ok a, .ok b, .ok c, .ok d, .ok e, .ok f => Except.ok (a + b + c + d + e + f)
  | _, _, _, _, _, _ => Except.error "ValueError: min() arg is an empty sequence"

/-- Model of x or min(l, key=price) in the relaxed second pass: keep x when
set, otherwise the cheapest component, raising ValueError on an empty list. -/
def orMin (x : Option Component) (l : List Component) : Except String (Option Component) :=
  match x with
  | some c => Except.ok (some c)
  | none =>
    match minByPrice l with
    | some m => Except.ok (some m)
    | none => Except.error "ValueError: min() arg is an empty sequence"

/-- The names of the unset slots, in the dict order of src/main.py line 153. -/
def missingOf (cpu gpu ram ssd psu mobo monitor : Option Component) : List String :=
  (if cpu = none then ["cpu"] else []) ++ (if gpu = none then ["gpu"] else []) ++
  (if ram = none then ["ram"] else []) ++ (if ssd = none then ["ssd"] else []) ++
  (if psu = none then ["psu"] else []) ++ (if mobo = none then ["motherboard"] else []) ++
  (if monitor = none then ["monitor"] else [])

/-- The total price of the seven selected components, in the order of the sum
at src/main.py lines 181-184. -/
def totalPrice (c : ComponentsMap) : ℚ :=
  c.cpu.price + c.gpu.price + c.ram.price + c.ssd.price +
  c.psu.price + c.motherboard.price + c.monitor.price

/-- Assembly of the success dict (src/main.py lines 181-207): subscripting a
still-unset slot for the total would raise TypeError; otherwise the total, the
over-budget flag and the optional note are computed. -/
def assemble_result (profile : String) (budget : ℚ) (allocation : Allocation)
    (auto_detected : Bool) (nf : Option String)
    (cpu gpu ram ssd psu mobo monitor : Option Component) : Except String Response :=
  match cpu, gpu, ram, ssd, psu, mobo, monitor with
  | some ccpu, some cgpu, some cram, some cssd, some cpsu, some cmobo, some cmon =>
    let comps : ComponentsMap := ⟨ccpu, cgpu, cram, cssd, cmobo, cpsu, cmon⟩
    let total := totalPrice comps
    let note := if auto_detected then some (auto_note profile nf) else nf
    Except.ok (Response.success profile budget comps total (decide (total > budget)) allocation note)
  | _, _, _, _, _, _, _ => Except.error "TypeError: NoneType object is not subscriptable"

/-- The relaxed second pass of recommend (src/main.py lines 157-176): replace
each unset slot by the cheapest component of its category, re-resolve the
motherboard against the (now set) CPU, then report still-unset slots or
assemble the result with the fallback note. -/
def second_pass (cat : Catalog) (r : RandPicks) (profile : String) (budget : ℚ)
    (allocation : Allocation) (auto_detected : Bool)
    (cpu gpu ram ssd psu mobo monitor : Option Component) : Except String Response :=
  (orMin cpu cat.cpus).bind fun cpu2 =>
  (orMin gpu cat.gpus).bind fun gpu2 =>
  (orMin ram cat.rams).bind fun ram2 =>
  (orMin ssd cat.ssds).bind fun ssd2 =>
  (orMin psu cat.psus).bind fun psu2 =>
  (match mobo with
   | some m => Except.ok (some m)
   | none => choose_compatible_motherboard cat.motherboards cpu2 r.kmobo2).bind fun mobo2 =>
  (orMin monitor cat.monitors).bind fun monitor2 =>
  let still := missingOf cpu2 gpu2 ram2 ssd2 psu2 mobo2 monitor2
  if still ≠ [] then Except.ok (Response.missingError profile budget still)
  else assemble_result profile budget allocation auto_detected (some note_fallback_msg)
    cpu2 gpu2 ram2 ssd2 psu2 mobo2 monitor2

/-- The body of recommend after profile detection (src/main.py lines 124-207). -/
def recommend_with_profile (cat : Catalog) (r : RandPicks) (profile : String)
    (auto_detected : Bool) (budget : ℚ) : Except String Response :=
  let profile_info := cat.profiles.lookup profile
  let allocation := (cat.allocation_percentages.lookup profile).getD Allocation.empty
  (minBase cat).bind fun min_base =>
  if budget < min_base then
    Except.ok (Response.budgetError profile budget (round2 min_base))
  else
    let cpu := choose_best_component cat.cpus budget (allocation.cpu.getD (25/100)) r.kcpu
    (choose_gpu_for_profile cat.gpus profile_info budget (allocation.gpu.getD (25/100)) r.kgpu).bind fun gpu =>
    (choose_ram_and_ssd cat.rams cat.ssds profile_info budget
      (allocation.ram.getD (15/100)) (allocation.ssd.getD (10/100)) r.kram r.kssd).bind fun rs =>
    let psu := choose_psu cat.psus gpu
    (choose_compatible_motherboard cat.motherboards cpu r.kmobo).bind fun mobo =>
    let monitor := choose_monitor cat.monitors profile budget r.kmon
    if missingOf cpu gpu rs.1 rs.2 psu mobo monitor ≠ [] then
      second_pass cat r profile budget allocation auto_detected cpu gpu rs.1 rs.2 psu mobo monitor
    else
      assemble_result profile budget allocation auto_detected none cpu gpu rs.1 rs.2 psu mobo monitor

/-- The body of recommend inside its try block (src/main.py lines 100-207). -/
def recommendCore (cat : Catalog) (r : RandPicks) (profile_raw : String) (budget : ℚ) :
    Except String Response :=
  let profile_in := pyLowerStrip profile_raw
  let pd := detect_profile cat.profiles profile_in budget
  recommend_with_profile cat r pd.1 pd.2 budget

/-- The recommend endpoint (src/main.py lines 98-211): the try/except boundary
normalizes any internal exception into the internal-error response. -/
def recommend (cat : Catalog) (r : RandPicks) (profile_raw : String) (budget : ℚ) : Response :=
  match recommendCore cat r profile_raw budget with
  | .ok resp => resp
  | .error e => Response.internalError e

/-- The minimum base cost as claim C2 states it: the cheapest price of each of
the SEVEN mandatory categories, gpus included. This definition follows the
words of the claim, for comparison against minBase, the quantity the source
actually computes (which omits gpus). -/
def minBaseClaimed (cat : Catalog) : Except String ℚ :=
  match minPriceIn cat.cpus, minPriceIn cat.gpus, minPriceIn cat.rams, minPriceIn cat.ssds,
        minPriceIn cat.psus, minPriceIn cat.motherboards, minPriceIn cat.monitors with
  | .ok a, .ok g, .ok b, .ok c, .ok d, .ok e, .ok f => Except.ok (a + g + b + c + d + e + f)
  | _, _, _, _, _, _, _ => Except.error "ValueError: min() arg is an empty sequence"

/-- An overpriced single-component list for the C3 counterexample. -/
def caroComp : Component := mkComp "caro" 100 5

/-- The cheap member of the equal-performance tie for C4. -/
def tieCheap : Component := mkComp "barato" 10 5

/-- The pricey member of the equal-performance tie for C4. -/
def tiePricey : Component := mkComp "carisimo" 20 5

/-- The profile entry of the concrete test catalog. -/
def cexProfileOfimatico : ProfileInfo := ⟨false, 0, 0⟩

/-- A concrete catalog with one component per category: every component costs
100 except the single GPU, which costs 500; only the ofimatico profile exists
and no allocation percentages are given (so recommend uses its defaults). -/
def cexCat : Catalog :=
  ⟨[("ofimatico", cexProfileOfimatico)],
   [mkComp "cpu1" 100 5],
   [mkComp "gpu1" 500 5],
   [mkComp "ram1" 100 5],
   [mkComp "ssd1" 100 5],
   [mkComp "psu1" 100 5],
   [mkComp "mobo1" 100 5],
   [mkComp "mon1" 100 5],
   []⟩

/-- The components mapping recommend produces on cexCat with budget 800. -/
def cexComps : ComponentsMap :=
  ⟨mkComp "cpu1" 100 5, mkComp "gpu1" 500 5, mkComp "ram1" 100 5, mkComp "ssd1" 100 5,
   mkComp "mobo1" 100 5, mkComp "psu1" 100 5, mkComp "mon1" 100 5⟩

/-- All random indices zero. -/
def rand0 : RandPicks := ⟨0, 0, 0, 0, 0, 0, 0⟩

/-- A CPU with socket AM4 for the C6 witness. -/
def am4cpu : Component := ⟨"cpuAM4", 100, 5, some "AM4", none, none, none, none, none⟩

/-- A motherboard with socket AM4 for the C6 witness. -/
def am4mobo : Component := ⟨"moboAM4", 100, 5, some "AM4", none, none, none, none, none⟩

/-- A motherboard with another socket for the C6 witness. -/
def lgaMobo : Component := ⟨"moboLGA", 90, 5, some "LGA1700", none, none, none, none, none⟩

/-- An integrated GPU for the C7 witness. -/
def intGpu : Component := ⟨"iGPU", 0, 1, none, none, none, none, some 30, some "integrated"⟩

/-- A discrete GPU for the C7 witness. -/
def discGpu : Component := ⟨"dGPU", 400, 9, none, none, none, none, some 170, some "discrete"⟩

/-- A three-tier PSU list for the C8 witness. -/
def psuList : List Component :=
  [mkComp "psu300" 50 1, mkComp "psu500" 80 2, mkComp "psu700" 120 3]

/-- A low-power GPU for the C8 witness. -/
def gpuLow : Component := ⟨"gpuLow", 100, 1, none, none, none, none, some 90, none⟩

/-- A high-power GPU for the C8 witness. -/
def gpuHigh : Component := ⟨"gpuHigh", 400, 9, none, none, none, none, some 170, none⟩

/-- Inversion for a successful Except bind. -/
theorem except_bind_ok {α β : Type} {e : Except String α} {f : α → Except String β} {b : β}
    (h : e.bind f = Except.ok b) : ∃ a, e = Except.ok a ∧ f a = Except.ok b := by
  cases e with
  | ok a => exact ⟨a, rfl, h⟩
  | error msg => simp [Except.bind] at h

/-- The ranking comparison is total. -/
theorem keyGe_total (a b : Component) : keyGe a b = true ∨ keyGe b a = true := by
  simp only [keyGe, decide_eq_true_eq]
  rcases lt_trichotomy a.performance_score b.performance_score with h | h | h
  · exact Or.inr (Or.inl h)
  · rcases le_total a.price b.price with hp | hp
    · exact Or.inr (Or.inr ⟨h, hp⟩)
    · exact Or.inl (Or.inr ⟨h.symm, hp⟩)
  · exact Or.inl (Or.inl h)

/-- The ranking comparison is transitive. -/
theorem keyGe_trans {a b c : Component} (h1 : keyGe a b = true) (h2 : keyGe b c = true) :
    keyGe a c = true := by
  simp only [keyGe, decide_eq_true_eq] at h1 h2 ⊢
  rcases h1 with h1 | ⟨h1e, h1p⟩ <;> rcases h2 with h2 | ⟨h2e, h2p⟩
  · exact Or.inl (h2.trans h1)
  · exact Or.inl (h2e ▸ h1)
  · exact Or.inl (h1e ▸ h2)
  · exact Or.inr ⟨h2e.trans h1e, h2p.trans h1p⟩

/-- Membership in an insertion. -/
theorem mem_insertDesc {x a : Component} {l : List Component} :
    x ∈ insertDesc a l ↔ x = a ∨ x ∈ l := by
  induction l with
  | nil => simp [insertDesc]
  | cons b bs ih =>
    simp only [insertDesc]
    split
    · simp [List.mem_cons]
    · simp only [List.mem_cons, ih]
      tauto

/-- Insertion grows the length by one. -/
theorem length_insertDesc (a : Component) (l : List Component) :
    (insertDesc a l).length = l.length + 1 := by
  induction l with
  | nil => rfl
  | cons b bs ih =>
    simp only [insertDesc]
    split <;> simp [ih]

/-- Sorting preserves the length. -/
theorem length_sortDesc (l : List Component) : (sortDesc l).length = l.length := by
  induction l with
  | nil => rfl
  | cons c cs ih => simp [sortDesc, length_insertDesc, ih]

/-- Insertion preserves sortedness. -/
theorem pairwise_insertDesc {a : Component} {l : List Component}
    (h : l.Pairwise (fun x y => keyGe x y = true)) :
    (insertDesc a l).Pairwise (fun x y => keyGe x y = true) := by
  induction l with
  | nil => simp [insertDesc]
  | cons b bs ih =>
    rcases List.pairwise_cons.mp h with ⟨hb, hbs⟩
    simp only [insertDesc]
    split
    case isTrue hk =>
      refine List.pairwise_cons.mpr ⟨?_, h⟩
      intro x hx
      rcases List.mem_cons.mp hx with rfl | hx
      · exact hk
      · exact keyGe_trans hk (hb x hx)
    case isFalse hk =>
      refine List.pairwise_cons.mpr ⟨?_, ih hbs⟩
      intro x hx
      rcases mem_insertDesc.mp hx with heq | hx
      · rw [heq]
        rcases keyGe_total a b with hh | hh
        · exact absurd hh hk
        · exact hh
      · exact hb x hx

/-- The candidate ranking is sorted for the descending comparison. -/
theorem sortDesc_pairwise (l : List Component) :
    (sortDesc l).Pairwise (fun x y => keyGe x y = true) := by
  induction l with
  | nil => simp [sortDesc]
  | cons c cs ih => exact pairwise_insertDesc ih

/-- random.choice on a non-empty list yields a member. -/
theorem rchoice_mem {α : Type} {l : List α} (h : l ≠ []) (k : Nat) :
    ∃ a, rchoice l k = some a ∧ a ∈ l := by
  have hlen : k % l.length < l.length := Nat.mod_lt _ (List.length_pos.mpr h)
  exact ⟨l.get ⟨_, hlen⟩, List.get?_eq_get hlen, List.get_mem _ _ _⟩

/-- C6: whenever the chosen CPU has a socket and some motherboard of the list
has the same socket, the motherboard picked by choose_compatible_motherboard
has the socket of the CPU, for every outcome of the random tie-break. -/
theorem choose_mobo_socket_matches (mobos : List Component) (cpu : Component) (s : String)
    (k : Nat) (hs : cpu.socket = some s) (hex : ∃ m ∈ mobos, m.socket = some s) :
    ∃ m, choose_compatible_motherboard mobos (some cpu) k = Except.ok (some m) ∧
      m.socket = some s := by
  obtain ⟨m0, hm0, hm0s⟩ := hex
  have hmem : m0 ∈ mobos.filter (fun m => m.socket == cpu.socket) := by
    rw [List.mem_filter]
    exact ⟨hm0, by rw [hm0s, hs]; simp⟩
  have hne : mobos.filter (fun m => m.socket == cpu.socket) ≠ [] :=
    List.ne_nil_of_mem hmem
  obtain ⟨m, hget, hmm⟩ := rchoice_mem hne k
  refine ⟨m, ?_, ?_⟩
  · simp only [choose_compatible_motherboard, if_neg hne, hget]
  · have hbeq := (List.mem_filter.mp hmm).2
    rw [hs] at hbeq
    simpa using hbeq

/-- C7: when the profile does not require a discrete GPU and some GPU of the
list is integrated, the selected GPU is integrated, for every budget,
allocation percentage and random index. -/
theorem choose_gpu_integrated (gpus : List Component) (info : ProfileInfo)
    (budget gpu_percent : ℚ) (k : Nat) (_hne : gpus ≠ [])
    (hreq : info.gpu_required = false)
    (hex : ∃ g ∈ gpus, g.level = some "integrated") :
    ∃ g, choose_gpu_for_profile gpus (some info) budget gpu_percent k = Except.ok (some g) ∧
      g.level = some "integrated" := by
  have hfind : (gpus.find? (fun g => g.level == some "integrated")).isSome := by
    rw [List.find?_isSome]
    obtain ⟨g, hg, hgl⟩ := hex
    exact ⟨g, hg, by rw [hgl]; simp⟩
  obtain ⟨g, hg⟩ := Option.isSome_iff_exists.mp hfind
  refine ⟨g, ?_, ?_⟩
  · simp only [choose_gpu_for_profile, hreq, if_pos, hg, Option.orElse]
  · simpa using List.find?_some hg

/-- C8: the PSU choice is monotone in the GPU power draw (default 100 when
absent): on a fixed non-empty PSU list, a GPU drawing at most as much power as
another one gets a PSU index at most as large, and choose_psu returns the
list entry at that index. -/
theorem choose_psu_monotone (psus : List Component) (g1 g2 : Component) (hne : psus ≠ [])
    (hle : g1.power_w.getD 100 ≤ g2.power_w.getD 100) :
    choose_psu psus (some g1) = psus.get? (choose_psu_idx psus (some g1)) ∧
    choose_psu psus (some g2) = psus.get? (choose_psu_idx psus (some g2)) ∧
    choose_psu_idx psus (some g1) ≤ choose_psu_idx psus (some g2) := by
  refine ⟨?_, ?_, ?_⟩
  · cases psus with
    | nil => exact absurd rfl hne
    | cons p ps => rfl
  · cases psus with
    | nil => exact absurd rfl hne
    | cons p ps => rfl
  · simp only [choose_psu_idx]
    split_ifs <;> first | rfl | omega | linarith

/-- C5: with no explicit known profile (empty, unknown after normalization, or
the literal ninguno), recommend proceeds with the budget-tier profile and the
auto-detected flag, the tiers are the documented step function of the budget,
and in particular the profile ninguno with budget 12000 detects estudiante. -/
theorem recommend_autodetect_step (cat : Catalog) (r : RandPicks) (profile_raw : String)
    (budget : ℚ)
    (h : pyLowerStrip profile_raw = "" ∨ cat.profiles.lookup (pyLowerStrip profile_raw) = none ∨
         pyLowerStrip profile_raw = "ninguno") :
    recommendCore cat r profile_raw budget =
      recommend_with_profile cat r (detect_by_budget budget) true budget ∧
    (budget < 10000 → detect_by_budget budget = "ofimatico") ∧
    (10000 ≤ budget ∧ budget < 20000 → detect_by_budget budget = "estudiante") ∧
    (20000 ≤ budget ∧ budget < 30000 → detect_by_budget budget = "programador") ∧
    (30000 ≤ budget ∧ budget < 40000 → detect_by_budget budget = "gamer") ∧
    (40000 ≤ budget → detect_by_budget budget = "disenador") ∧
    (detect_profile cat.profiles (pyLowerStrip "ninguno") 12000).1 = "estudiante" := by
  refine ⟨?_, ?_, ?_, ?_, ?_, ?_, ?_⟩
  · simp only [recommendCore, detect_profile, if_pos h]
  · intro hb
    simp only [detect_by_budget, if_pos hb]
  · rintro ⟨hb1, hb2⟩
    simp only [detect_by_budget, if_neg (by linarith : ¬ budget < 10000), if_pos hb2]
  · rintro ⟨hb1, hb2⟩
    simp only [detect_by_budget, if_neg (by linarith : ¬ budget < 10000),
      if_neg (by linarith : ¬ budget < 20000), if_pos hb2]
  · rintro ⟨hb1, hb2⟩
    simp only [detect_by_budget, if_neg (by linarith : ¬ budget < 10000),
      if_neg (by linarith : ¬ budget < 20000), if_neg (by linarith : ¬ budget < 30000),
      if_pos hb2]
  · intro hb
    simp only [detect_by_budget, if_neg (by linarith : ¬ budget < 10000),
      if_neg (by linarith : ¬ budget < 20000), if_neg (by linarith : ¬ budget < 30000),
      if_neg (by linarith : ¬ budget < 40000)]
  · have hnn : pyLowerStrip "ninguno" = "ninguno" := by decide
    rw [hnn]
    simp only [detect_profile, if_pos (Or.inr (Or.inr rfl))]
    simp only [detect_by_budget]
    norm_num

/-- When some candidate is at or below the ceiling, choose_best_component
always picks a component, for every outcome of the random tie-break. -/
theorem choose_best_isSome (components : List Component) (mb pct : ℚ) (k : Nat)
    (hne : components.filter (fun c => decide (c.price ≤ ceilingPrice mb pct)) ≠ []) :
    ∃ c, choose_best_component components mb pct k = some c := by
  have hrank : ranked_candidates components mb pct ≠ [] := by
    intro hnil
    apply hne
    have := length_sortDesc (components.filter (fun c => decide (c.price ≤ ceilingPrice mb pct)))
    rw [show sortDesc (components.filter (fun c => decide (c.price ≤ ceilingPrice mb pct))) =
        ranked_candidates components mb pct from rfl, hnil] at this
    exact List.length_eq_zero.mp this.symm
  unfold choose_best_component
  rw [if_neg hne]
  split
  · have htake : (ranked_candidates components mb pct).take 2 ≠ [] := by
      cases hr : ranked_candidates components mb pct with
      | nil => exact absurd hr hrank
      | cons a as => simp [List.take]
    obtain ⟨a, ha, _⟩ := rchoice_mem htake k
    exact ⟨a, ha⟩
  · cases hr : ranked_candidates components mb pct with
    | nil => exact absurd hr hrank
    | cons a as => exact ⟨a, rfl⟩

/-- C3 amended: choose_best_component returns no component exactly when no
candidate is at or below the ceiling; the fallback to the globally cheapest
component lives in its callers (the pre-filter fallback of choose_ram_and_ssd
and the relaxed second pass of recommend), not inside choose_best_component. -/
theorem choose_best_component_none_iff (components : List Component) (mb pct : ℚ) (k : Nat) :
    choose_best_component components mb pct k = none ↔
      components.filter (fun c => decide (c.price ≤ ceilingPrice mb pct)) = [] := by
  constructor
  · intro h
    by_contra hne
    obtain ⟨c, hc⟩ := choose_best_isSome components mb pct k hne
    rw [h] at hc
    exact Option.noConfusion hc
  · intro h
    simp [choose_best_component, h]

/-- C3 counterexample: on the non-empty list with one component of price 100,
ceiling 10 * 0.1 * 1.15 = 1.15, choose_best_component returns none rather
than the globally cheapest component. -/
theorem choose_best_component_none_cex :
    [caroComp] ≠ [] ∧ choose_best_component [caroComp] 10 (1/10) 0 = none := by
  constructor
  · simp
  · norm_num [choose_best_component, caroComp, mkComp, List.filter, ceilingPrice]

/-- C4 counterexample: both tie components qualify under ceiling 115 and have
performance 5, yet the ranking puts the more expensive one first and the pick
with two candidates is the more expensive one. -/
theorem ranked_candidates_tie_cex :
    tieCheap.performance_score = tiePricey.performance_score ∧
    tieCheap.price < tiePricey.price ∧
    ranked_candidates [tieCheap, tiePricey] 100 1 = [tiePricey, tieCheap] ∧
    choose_best_component [tieCheap, tiePricey] 100 1 0 = some tiePricey := by
  refine ⟨rfl, by norm_num [tieCheap, tiePricey, mkComp], ?_, ?_⟩
  · norm_num [ranked_candidates, tieCheap, tiePricey, mkComp, List.filter, ceilingPrice,
      sortDesc, insertDesc, keyGe]
  · norm_num [choose_best_component, ranked_candidates, tieCheap, tiePricey, mkComp,
      List.filter, ceilingPrice, sortDesc, insertDesc, keyGe]
    intro h
    simp at h

/-- C4 amended: in the ranking of qualifying candidates, between two
candidates of equal performance_score the more expensive one is ranked at the
earlier position: ties are broken toward higher price, because the sort is
reverse lexicographic on the pair (performance_score, price). -/
theorem ranked_candidates_tie_higher_price_first (components : List Component)
    (mb pct : ℚ) (i j : Nat) (a b : Component) (hij : i < j)
    (ha : (ranked_candidates components mb pct).get? i = some a)
    (hb : (ranked_candidates components mb pct).get? j = some b)
    (hperf : a.performance_score = b.performance_score) :
    b.price ≤ a.price := by
  have hp := sortDesc_pairwise (components.filter (fun c => decide (c.price ≤ ceilingPrice mb pct)))
  obtain ⟨hi, hga⟩ := List.get?_eq_some.mp ha
  obtain ⟨hj, hgb⟩ := List.get?_eq_some.mp hb
  have hrel := List.pairwise_iff_get.mp hp ⟨i, hi⟩ ⟨j, hj⟩ hij
  rw [show (ranked_candidates components mb pct).get ⟨i, hi⟩ =
      (sortDesc (components.filter (fun c => decide (c.price ≤ ceilingPrice mb pct)))).get
        ⟨i, hi⟩ from rfl] at hga
  rw [show (ranked_candidates components mb pct).get ⟨j, hj⟩ =
      (sortDesc (components.filter (fun c => decide (c.price ≤ ceilingPrice mb pct)))).get
        ⟨j, hj⟩ from rfl] at hgb
  rw [hga, hgb] at hrel
  rw [keyGe, decide_eq_true_eq] at hrel
  rcases hrel with hlt | ⟨_, hle⟩
  · rw [hperf] at hlt
    exact absurd hlt (lt_irrefl _)
  · exact hle

/-- Every success emitted by assemble_result carries the profile and budget it
was given, a total equal to the sum of the seven component prices, the
over-budget flag equal to that comparison, and a note when auto-detected. -/
theorem assemble_result_ok_success (profile : String) (budget : ℚ) (alloc : Allocation)
    (auto : Bool) (nf : Option String) (cpu gpu ram ssd psu mobo monitor : Option Component)
    (prof : String) (bi : ℚ) (comps : ComponentsMap) (total : ℚ) (exceeds : Bool)
    (alloc2 : Allocation) (note : Option String)
    (h : assemble_result profile budget alloc auto nf cpu gpu ram ssd psu mobo monitor =
      Except.ok (Response.success prof bi comps total exceeds alloc2 note)) :
    prof = profile ∧ bi = budget ∧ total = totalPrice comps ∧
    (exceeds = true ↔ total > budget) ∧ (auto = true → note.isSome = true) := by
  cases cpu <;> cases gpu <;> cases ram <;> cases ssd <;> cases psu <;> cases mobo <;>
      cases monitor <;>
    simp only [assemble_result, Except.ok.injEq, Response.success.injEq] at h
  all_goals try exact Except.noConfusion h
  obtain ⟨h1, h2, h3, h4, h5, h6, h7⟩ := h
  subst h1 h2 h3 h4 h5 h6 h7
  refine ⟨rfl, rfl, rfl, ?_, ?_⟩
  · exact decide_eq_true_iff
  · intro ha
    rw [ha]
    rfl

/-- Every success emitted by the relaxed second pass satisfies the success
invariant. -/
theorem second_pass_ok_success (cat : Catalog) (r : RandPicks) (profile : String) (budget : ℚ)
    (alloc : Allocation) (auto : Bool) (cpu gpu ram ssd psu mobo monitor : Option Component)
    (prof : String) (bi : ℚ) (comps : ComponentsMap) (total : ℚ) (exceeds : Bool)
    (alloc2 : Allocation) (note : Option String)
    (h : second_pass cat r profile budget alloc auto cpu gpu ram ssd psu mobo monitor =
      Except.ok (Response.success prof bi comps total exceeds alloc2 note)) :
    prof = profile ∧ bi = budget ∧ total = totalPrice comps ∧
    (exceeds = true ↔ total > budget) ∧ (auto = true → note.isSome = true) := by
  unfold second_pass at h
  obtain ⟨cpu2, hc, h⟩ := except_bind_ok h
  obtain ⟨gpu2, hg, h⟩ := except_bind_ok h
  obtain ⟨ram2, hr, h⟩ := except_bind_ok h
  obtain ⟨ssd2, hsd, h⟩ := except_bind_ok h
  obtain ⟨psu2, hp, h⟩ := except_bind_ok h
  obtain ⟨mobo2, hmo, h⟩ := except_bind_ok h
  obtain ⟨monitor2, hmn, h⟩ := except_bind_ok h
  by_cases hstill : missingOf cpu2 gpu2 ram2 ssd2 psu2 mobo2 monitor2 ≠ []
  · rw [if_pos hstill] at h
    simp at h
  · rw [if_neg hstill] at h
    exact assemble_result_ok_success profile budget alloc auto (some note_fallback_msg)
      cpu2 gpu2 ram2 ssd2 psu2 mobo2 monitor2 prof bi comps total exceeds alloc2 note h

/-- Every success emitted by the recommend body satisfies the success
invariant. -/
theorem recommend_with_profile_ok_success (cat : Catalog) (r : RandPicks) (profile : String)
    (auto : Bool) (budget : ℚ) (prof : String) (bi : ℚ) (comps : ComponentsMap) (total : ℚ)
    (exceeds : Bool) (alloc2 : Allocation) (note : Option String)
    (h : recommend_with_profile cat r profile auto budget =
      Except.ok (Response.success prof bi comps total exceeds alloc2 note)) :
    prof = profile ∧ bi = budget ∧ total = totalPrice comps ∧
    (exceeds = true ↔ total > budget) ∧ (auto = true → note.isSome = true) := by
  simp only [recommend_with_profile] at h
  obtain ⟨min_base, hm, h⟩ := except_bind_ok h
  by_cases hb : budget < min_base
  · rw [if_pos hb] at h
    simp at h
  · rw [if_neg hb] at h
    obtain ⟨gpu, hgpu, h⟩ := except_bind_ok h
    obtain ⟨rs, hrs, h⟩ := except_bind_ok h
    obtain ⟨mobo, hmobo, h⟩ := except_bind_ok h
    by_cases hmiss : missingOf
        (choose_best_component cat.cpus budget
          (((cat.allocation_percentages.lookup profile).getD Allocation.empty).cpu.getD (25/100))
          r.kcpu)
        gpu rs.1 rs.2 (choose_psu cat.psus gpu) mobo
        (choose_monitor cat.monitors profile budget r.kmon) ≠ []
    · rw [if_pos hmiss] at h
      exact second_pass_ok_success cat r profile budget _ auto _ gpu rs.1 rs.2 _ mobo _
        prof bi comps total exceeds alloc2 note h
    · rw [if_neg hmiss] at h
      exact assemble_result_ok_success profile budget _ auto none _ gpu rs.1 rs.2 _ mobo _
        prof bi comps total exceeds alloc2 note h

/-- C1: every success returned by recommend has a total_price_estimate equal
to the exact sum of the prices of the seven selected components (one per
mandatory category by construction of ComponentsMap), echoes the input budget,
and sets exceeds_budget exactly when that sum strictly exceeds the budget. -/
theorem recommend_success_total_and_flag (cat : Catalog) (r : RandPicks) (praw : String)
    (budget : ℚ) (prof : String) (bi : ℚ) (comps : ComponentsMap) (total : ℚ)
    (exceeds : Bool) (alloc2 : Allocation) (note : Option String)
    (h : recommend cat r praw budget =
      Response.success prof bi comps total exceeds alloc2 note) :
    total = comps.cpu.price + comps.gpu.price + comps.ram.price + comps.ssd.price +
      comps.psu.price + comps.motherboard.price + comps.monitor.price ∧
    bi = budget ∧ (exceeds = true ↔ total > budget) := by
  unfold recommend at h
  cases hc : recommendCore cat r praw budget with
  | error e =>
    rw [hc] at h
    simp at h
  | ok resp =>
    rw [hc] at h
    subst h
    simp only [recommendCore] at hc
    have hi := recommend_with_profile_ok_success cat r _ _ budget prof bi comps total exceeds
      alloc2 note hc
    exact ⟨hi.2.2.1.trans rfl, hi.2.1, hi.2.2.2.1⟩

/-- C9: for every catalog, every randomness and every input, recommend is a
total function whose value is either a success or a response carrying one of
the fixed error messages: no exception escapes the boundary. -/
theorem recommend_is_success_or_error (cat : Catalog) (r : RandPicks) (praw : String)
    (budget : ℚ) :
    (recommend cat r praw budget).isSuccess = true ∨
    ((recommend cat r praw budget).errorMsg).isSome = true := by
  cases recommend cat r praw budget <;> simp [Response.isSuccess, Response.errorMsg]

/-- C10: a non-empty profile string that is unknown after lowercasing and
trimming is not rejected: recommend behaves exactly as with an empty profile
string (budget-based auto-detection), and any success result carries the
auto-detection note. -/
theorem recommend_unknown_profile_autodetect (cat : Catalog) (r : RandPicks) (praw : String)
    (budget : ℚ) (_hne : pyLowerStrip praw ≠ "")
    (hunk : cat.profiles.lookup (pyLowerStrip praw) = none) :
    recommend cat r praw budget = recommend cat r "" budget ∧
    ∀ prof bi comps total exceeds alloc2 note,
      recommend cat r praw budget = Response.success prof bi comps total exceeds alloc2 note →
      note.isSome = true := by
  have hdet : detect_profile cat.profiles (pyLowerStrip praw) budget =
      (detect_by_budget budget, true) := by
    simp only [detect_profile, if_pos (Or.inr (Or.inl hunk))]
  have hdet0 : detect_profile cat.profiles (pyLowerStrip "") budget =
      (detect_by_budget budget, true) := by
    have h0 : pyLowerStrip "" = "" := by decide
    rw [h0]
    simp [detect_profile]
  have hcore : recommendCore cat r praw budget = recommendCore cat r "" budget := by
    simp only [recommendCore, hdet, hdet0]
  constructor
  · simp only [recommend, hcore]
  · intro prof bi comps total exceeds alloc2 note h
    unfold recommend at h
    cases hc : recommendCore cat r praw budget with
    | error e =>
      rw [hc] at h
      simp at h
    | ok resp =>
      rw [hc] at h
      subst h
      simp only [recommendCore, hdet] at hc
      have hi := recommend_with_profile_ok_success cat r _ _ budget prof bi comps total
        exceeds alloc2 note hc
      exact hi.2.2.2.2 rfl

/-- C2 amended: the minimum base cost recommend computes is the six-category
sum of minBase (gpus are NOT part of it); whenever the budget is strictly
below it, recommend returns the structured budget error carrying the detected
profile, the input budget and the minimum rounded to two decimals, with no
components in the response. -/
theorem recommend_budget_below_minbase (cat : Catalog) (r : RandPicks) (praw : String)
    (budget v : ℚ) (hmb : minBase cat = Except.ok v) (hlt : budget < v) :
    recommend cat r praw budget =
      Response.budgetError (detect_profile cat.profiles (pyLowerStrip praw) budget).1 budget
        (round2 v) ∧
    (recommend cat r praw budget).hasComponents = false ∧
    (recommend cat r praw budget).minimumRequired = some (round2 v) := by
  have hcore : recommendCore cat r praw budget =
      Except.ok (Response.budgetError
        (detect_profile cat.profiles (pyLowerStrip praw) budget).1 budget (round2 v)) := by
    simp only [recommendCore, recommend_with_profile, hmb, Except.bind, if_pos hlt]
  refine ⟨?_, ?_, ?_⟩ <;>
    simp [recommend, hcore, Response.hasComponents, Response.minimumRequired]

/-- Evaluation of recommend on the concrete catalog with budget 800: the SSD
allocation 800 * 0.10 * 1.15 = 92 is below the SSD price 100, so the relaxed
second pass fills the SSD slot, and the total 1100 exceeds the budget. -/
theorem recommend_cex_eval :
    recommend cexCat rand0 "" 800 =
      Response.success "ofimatico" 800 cexComps 1100 true Allocation.empty
        (some (auto_note "ofimatico" (some note_fallback_msg))) := by
  have h0 : pyLowerStrip "" = "" := by decide
  have hdet : detect_profile cexCat.profiles "" 800 = ("ofimatico", true) := by
    norm_num [detect_profile, detect_by_budget]
  simp only [recommend, recommendCore, h0, hdet]
  norm_num [recommend_with_profile, cexCat, cexProfileOfimatico, rand0, minBase, minPriceIn,
    minByPrice, minByPriceAux, choose_best_component, ranked_candidates, sortDesc, insertDesc,
    keyGe, ceilingPrice, choose_gpu_for_profile, choose_ram_and_ssd, choose_psu, choose_psu_idx,
    choose_compatible_motherboard, choose_monitor, rchoice, missingOf, second_pass, orMin,
    assemble_result, totalPrice, mkComp, Except.bind, List.filter, List.lookup, Option.getD,
    Allocation.empty, cexComps, List.find?, Option.orElse]
  simp

/-- C2 counterexample: on cexCat the seven-category minimum claimed by the
spec is 1100 and the budget 800 is strictly below it, yet recommend succeeds
(and returns no minimum_required), because the source omits gpus from
min_base: the computed minimum is 600 and 800 passes the check. -/
theorem recommend_minbase_excludes_gpus_cex :
    minBaseClaimed cexCat = Except.ok 1100 ∧ (800 : ℚ) < 1100 ∧
    (recommend cexCat rand0 "" 800).isSuccess = true ∧
    (recommend cexCat rand0 "" 800).minimumRequired = none := by
  refine ⟨?_, by norm_num, ?_, ?_⟩
  · norm_num [minBaseClaimed, minPriceIn, minByPrice, minByPriceAux, cexCat, mkComp]
  · rw [recommend_cex_eval]
    rfl
  · rw [recommend_cex_eval]
    rfl

/-- Witness for the amended C2 theorem at cexCat with budget 100: the
six-category minimum is 600 and the response is the budget error carrying
round2 600 = 600. -/
theorem recommend_budget_below_minbase_witness :
    recommend cexCat rand0 "" 100 =
      Response.budgetError (detect_profile cexCat.profiles (pyLowerStrip "") 100).1 100
        (round2 600) ∧
    (recommend cexCat rand0 "" 100).hasComponents = false ∧
    (recommend cexCat rand0 "" 100).minimumRequired = some (round2 600) :=
  recommend_budget_below_minbase cexCat rand0 "" 100 600
    (by norm_num [minBase, minPriceIn, minByPrice, minByPriceAux, cexCat, mkComp])
    (by norm_num)

/-- Witness for C1 at the concrete success on cexCat with budget 800. -/
theorem recommend_success_total_and_flag_witness :
    (1100 : ℚ) = cexComps.cpu.price + cexComps.gpu.price + cexComps.ram.price +
      cexComps.ssd.price + cexComps.psu.price + cexComps.motherboard.price +
      cexComps.monitor.price ∧
    (800 : ℚ) = 800 ∧ (true = true ↔ (1100 : ℚ) > 800) :=
  recommend_success_total_and_flag cexCat rand0 "" 800 "ofimatico" 800 cexComps 1100 true
    Allocation.empty (some (auto_note "ofimatico" (some note_fallback_msg))) recommend_cex_eval

/-- Witness for C10: the unknown profile Desconocido behaves exactly like the
empty profile on cexCat. -/
theorem recommend_unknown_profile_autodetect_witness :
    recommend cexCat rand0 "Desconocido" 800 = recommend cexCat rand0 "" 800 :=
  (recommend_unknown_profile_autodetect cexCat rand0 "Desconocido" 800 (by decide) (by decide)).1

/-- Witness for C5: profile ninguno with budget 12000 auto-detects estudiante
and recommend proceeds with the detected profile. -/
theorem recommend_autodetect_step_witness :
    recommendCore cexCat rand0 "ninguno" 12000 =
      recommend_with_profile cexCat rand0 (detect_by_budget 12000) true 12000 ∧
    (detect_profile cexCat.profiles (pyLowerStrip "ninguno") 12000).1 = "estudiante" :=
  ⟨(recommend_autodetect_step cexCat rand0 "ninguno" 12000 (by decide)).1,
   (recommend_autodetect_step cexCat rand0 "ninguno" 12000 (by decide)).2.2.2.2.2.2⟩

/-- Witness for C6: with an AM4 CPU and a list holding one AM4 and one LGA1700
motherboard, the picked motherboard has socket AM4. -/
theorem choose_mobo_socket_matches_witness :
    ∃ m, choose_compatible_motherboard [lgaMobo, am4mobo] (some am4cpu) 3 = Except.ok (some m) ∧
      m.socket = some "AM4" :=
  choose_mobo_socket_matches [lgaMobo, am4mobo] am4cpu "AM4" 3 rfl ⟨am4mobo, by simp, rfl⟩

/-- Witness for C7: the ofimatico profile does not require a GPU, so the
integrated GPU of the list is selected. -/
theorem choose_gpu_integrated_witness :
    ∃ g, choose_gpu_for_profile [discGpu, intGpu] (some cexProfileOfimatico) 800 (25/100) 2 =
      Except.ok (some g) ∧ g.level = some "integrated" :=
  choose_gpu_integrated [discGpu, intGpu] cexProfileOfimatico 800 (25/100) 2 (by simp) rfl
    ⟨intGpu, by simp, rfl⟩

/-- Witness for C8: on a three-tier PSU list, a 90 W GPU gets index 0 and a
170 W GPU gets index 2. -/
theorem choose_psu_monotone_witness :
    choose_psu psuList (some gpuLow) = psuList.get? (choose_psu_idx psuList (some gpuLow)) ∧
    choose_psu psuList (some gpuHigh) = psuList.get? (choose_psu_idx psuList (some gpuHigh)) ∧
    choose_psu_idx psuList (some gpuLow) ≤ choose_psu_idx psuList (some gpuHigh) :=
  choose_psu_monotone psuList gpuLow gpuHigh (by simp [psuList])
    (by norm_num [gpuLow, gpuHigh])

/-- Witness for the amended C4 theorem at the concrete equal-performance tie:
position 0 holds the pricier component, position 1 the cheaper one. -/
theorem ranked_candidates_tie_higher_price_first_witness :
    (ranked_candidates [tieCheap, tiePricey] 100 1).get? 0 = some tiePricey ∧
    (ranked_candidates [tieCheap, tiePricey] 100 1).get? 1 = some tieCheap ∧
    tieCheap.price ≤ tiePricey.price :=
  have hr : ranked_candidates [tieCheap, tiePricey] 100 1 = [tiePricey, tieCheap] := by
    norm_num [ranked_candidates, tieCheap, tiePricey, mkComp, List.filter, ceilingPrice,
      sortDesc, insertDesc, keyGe]
  ⟨by rw [hr]; rfl, by rw [hr]; rfl,
   ranked_candidates_tie_higher_price_first [tieCheap, tiePricey] 100 1 0 1 tiePricey tieCheap
     (by norm_num) (by rw [hr]; rfl) (by rw [hr]; rfl) rfl⟩
